import Mathlib

/-!
Verification of the karpenter node-lifecycle reallocation engine, as a shallow
embedding of two source files:

* pkg/apis/provisioning/v1alpha3/provisioner.go — the data model and the
  constraint resolver (Constraints.WithOverrides and its helpers);
* the reallocation controller (package reallocation) — Controller.Reconcile.

Go maps are modelled as association lists with List.lookup; pointer-valued
optional fields become Option; time.Duration becomes a count of nanoseconds.
External calls made by Reconcile (the client Get and the four Utilization
operations) are modelled by an environment that records the outcome each call
would produce during the cycle, so Reconcile becomes a pure function of that
environment.
-/

namespace Karpenter

/-- One entry of k8s.io/api/core/v1 Taint, as used by the Constraints type. -/
structure Taint where
  key : String
  value : String
  effect : String
deriving DecidableEq

/-- The slice of a pod that the resolver reads: pod.Spec.NodeSelector,
a Go string map modelled as an association list. -/
structure Pod where
  nodeSelector : List (String × String)
deriving DecidableEq

/-- Constraints from provisioner.go: taints, labels, zones, instance types,
architecture and operating system. Pointer fields are Option, nil slices are
the empty list. -/
structure Constraints where
  Taints : List Taint
  Labels : List (String × String)
  Zones : List String
  InstanceTypes : List String
  Architecture : Option String
  OperatingSystem : Option String
deriving DecidableEq

/-- Well known label key for zone (provisioner.go var ZoneLabelKey). -/
def ZoneLabelKey : String := "topology.kubernetes.io/zone"

/-- Well known label key for instance type (provisioner.go var InstanceTypeLabelKey). -/
def InstanceTypeLabelKey : String := "node.kubernetes.io/instance-type"

/-- Well known label key for architecture (provisioner.go var ArchitectureLabelKey). -/
def ArchitectureLabelKey : String := "kubernetes.io/arch"

/-- Well known label key for operating system (provisioner.go var OperatingSystemLabelKey). -/
def OperatingSystemLabelKey : String := "kubernetes.io/os"

/-- provisioner.go var ArchitectureAmd64. -/
def ArchitectureAmd64 : String := "amd64"

/-- provisioner.go var OperatingSystemLinux. -/
def OperatingSystemLinux : String := "linux"

/-- Modelled from the spec: pkg/utils/functional UnionStringMaps is not among
the inspected sources. The spec says labels are combined by key-wise union
across provisioner labels and workload selector keys, with workload-supplied
keys taking precedence on collision. Keys of the second map win. -/
def UnionStringMaps (a b : List (String × String)) : List (String × String) :=
  a.filter (fun p => (b.lookup p.1).isNone) ++ b

/-- provisioner.go Constraints.getZones: the pod may override the zone via its
node selector; otherwise the provisioner zones are used when non-empty;
otherwise the result is unconstrained (nil, modelled as the empty list). -/
def Constraints.getZones (c : Constraints) (pod : Pod) : List String :=
  match pod.nodeSelector.lookup ZoneLabelKey with
  | some zone => [zone]
  | none => if c.Zones.length ≠ 0 then c.Zones else []

/-- provisioner.go Constraints.getInstanceTypes: same shape as getZones, keyed
by the instance-type label. -/
def Constraints.getInstanceTypes (c : Constraints) (pod : Pod) : List String :=
  match pod.nodeSelector.lookup InstanceTypeLabelKey with
  | some instanceType => [instanceType]
  | none => if c.InstanceTypes.length ≠ 0 then c.InstanceTypes else []

/-- provisioner.go Constraints.getArchitecture: pod override, then the
provisioner value when set, then the fixed default amd64. -/
def Constraints.getArchitecture (c : Constraints) (pod : Pod) : Option String :=
  match pod.nodeSelector.lookup ArchitectureLabelKey with
  | some architecture => some architecture
  | none =>
    match c.Architecture with
    | some a => some a
    | none => some ArchitectureAmd64

/-- provisioner.go Constraints.getOperatingSystem: pod override, then the
provisioner value when set, then the fixed default linux. -/
def Constraints.getOperatingSystem (c : Constraints) (pod : Pod) : Option String :=
  match pod.nodeSelector.lookup OperatingSystemLabelKey with
  | some operatingSystem => some operatingSystem
  | none =>
    match c.OperatingSystem with
    | some o => some o
    | none => some OperatingSystemLinux

/-- provisioner.go Constraints.WithOverrides: resolves the effective constraint
set from provisioner defaults and the pod node selector. Total: no error path
exists in the source. -/
def Constraints.WithOverrides (c : Constraints) (pod : Pod) : Constraints :=
  { Taints := c.Taints
    Labels := UnionStringMaps c.Labels pod.nodeSelector
    Zones := c.getZones pod
    InstanceTypes := c.getInstanceTypes pod
    Architecture := c.getArchitecture pod
    OperatingSystem := c.getOperatingSystem pod }

/-! Controller data model (package reallocation). -/

/-- provisioner.go Cluster: connection info, opaque to the controller. -/
structure Cluster where
  Endpoint : String
  CABundle : Option String
  Name : Option String
deriving DecidableEq

/-- provisioner.go ProvisionerSpec: cluster info, inlined constraints and the
two optional TTL fields (Go pointers to int64, modelled as Option Int). -/
structure ProvisionerSpec where
  Cluster : Cluster
  Constraints : Constraints
  TTLSecondsAfterEmpty : Option Int
  TTLSecondsUntilExpired : Option Int
deriving DecidableEq

/-- provisioner.go Provisioner, reduced to the fields the modelled code reads:
the object name (from its metadata) and the spec. The status subresource is
never read by Reconcile and is omitted. -/
structure Provisioner where
  name : String
  Spec : ProvisionerSpec
deriving DecidableEq

/-- Go errors as a tree: a raw error from an external call, or the result of
wrapping one with a stage message. A wrapping keeps the wrapped error intact. -/
inductive KError where
  | raw (s : String)
  | wrapped (msg : String) (e : KError)
deriving DecidableEq

/-- The four Utilization lifecycle operations that Reconcile can invoke. -/
inductive Stage where
  | terminateFailedToJoin
  | markUnderutilized
  | clearUnderutilized
  | terminateExpired
deriving DecidableEq

/-- Outcome of the client Get for the Provisioner: either the object, or an
error together with the verdict of errors.IsNotFound on it. -/
inductive GetResult where
  | found (p : Provisioner)
  | failed (isNotFound : Bool) (e : KError)
deriving DecidableEq

/-- The outcomes the external collaborators would produce during one reconcile
cycle: the Get result and, for each Utilization operation, the error it would
return if invoked (none meaning success). Reconcile is a pure function of
this environment. -/
structure Env where
  getProvisioner : GetResult
  terminateFailedToJoin : Option KError
  markUnderutilized : Option KError
  clearUnderutilized : Option KError
  terminateExpired : Option KError
deriving DecidableEq

/-- sigs.k8s.io/controller-runtime reconcile.Result: a requeue flag and a
RequeueAfter duration in nanoseconds (time.Duration). -/
structure Result where
  Requeue : Bool
  RequeueAfter : Nat
deriving DecidableEq

/-- The zero reconcile.Result literal used on every early-return path. -/
def zeroResult : Result := { Requeue := false, RequeueAfter := 0 }

/-- time.Second in nanoseconds. -/
def timeSecond : Nat := 1000000000

/-- The fixed order in which Reconcile drives the Utilization operations. -/
def stageOrder : List Stage :=
  [Stage.terminateFailedToJoin, Stage.markUnderutilized,
   Stage.clearUnderutilized, Stage.terminateExpired]

/-- Controller.Reconcile from the reallocation package, as a pure function of
the call outcomes. Returns the reconcile.Result and error exactly as the Go
code does, plus a trace of which Utilization operations were invoked, so that
non-invocation properties can be stated. Control flow follows the source:
fetch (not-found returns success, other errors return as-is); terminate
failed-to-join (error wrapped); early success return when TTLSecondsAfterEmpty
is nil; mark, clear, terminate-expired (errors wrapped); final success with a
5 second RequeueAfter. -/
def Reconcile (env : Env) : Result × Option KError × List Stage :=
  match env.getProvisioner with
  | GetResult.failed true _ => (zeroResult, none, [])
  | GetResult.failed false e => (zeroResult, some e, [])
  | GetResult.found p =>
    match env.terminateFailedToJoin with
    | some e =>
      (zeroResult, some (KError.wrapped "terminating nodes that failed to join" e),
       [Stage.terminateFailedToJoin])
    | none =>
      match p.Spec.TTLSecondsAfterEmpty with
      | none => (zeroResult, none, [Stage.terminateFailedToJoin])
      | some _ =>
        match env.markUnderutilized with
        | some e =>
          (zeroResult, some (KError.wrapped "adding ttl and underutilized label" e),
           [Stage.terminateFailedToJoin, Stage.markUnderutilized])
        | none =>
          match env.clearUnderutilized with
          | some e =>
            (zeroResult, some (KError.wrapped "removing ttl from node" e),
             [Stage.terminateFailedToJoin, Stage.markUnderutilized,
              Stage.clearUnderutilized])
          | none =>
            match env.terminateExpired with
            | some e =>
              (zeroResult, some (KError.wrapped "marking nodes terminable" e),
               stageOrder)
            | none =>
              ({ Requeue := false, RequeueAfter := 5 * timeSecond }, none, stageOrder)

/-- True exactly when an error is present and is a stage wrapping. -/
def isStageWrapped : Option KError → Bool
  | some (KError.wrapped _ _) => true
  | _ => false

/-! Concrete instances used to exercise the theorems. -/

/-- A provisioner that configures every resolver dimension. -/
def fullConstraints : Constraints :=
  { Taints := [{ key := "dedicated", value := "gpu", effect := "NoSchedule" }]
    Labels := [("team", "alpha")]
    Zones := ["us-east-1a", "us-east-1b"]
    InstanceTypes := ["m5.large"]
    Architecture := some "arm64"
    OperatingSystem := some "windows" }

/-- A pod whose node selector overrides all four well-known keys. -/
def overridingPod : Pod :=
  { nodeSelector :=
      [(ZoneLabelKey, "eu-west-1c"), (InstanceTypeLabelKey, "c5.xlarge"),
       (ArchitectureLabelKey, "amd64"), (OperatingSystemLabelKey, "linux")] }

/-- A constraint set configuring none of the four dimensions. -/
def emptyConstraints : Constraints :=
  { Taints := [], Labels := [], Zones := [], InstanceTypes := [],
    Architecture := none, OperatingSystem := none }

/-- A pod whose node selector holds no well-known key. -/
def plainPod : Pod := { nodeSelector := [("app", "web")] }

/-- A provisioner allow-set for zones and instance types. -/
def allowSetConstraints : Constraints :=
  { Taints := [], Labels := [], Zones := ["us-east-1a"], InstanceTypes := ["m5.large"],
    Architecture := none, OperatingSystem := none }

/-- A pod selecting a zone and an instance type outside the allow-sets. -/
def foreignSelectorPod : Pod :=
  { nodeSelector := [(ZoneLabelKey, "mars-1"), (InstanceTypeLabelKey, "warp.core")] }

/-- Cluster connection info for the concrete provisioners. -/
def clusterEx : Cluster :=
  { Endpoint := "https://cluster.example.com", CABundle := none, Name := none }

/-- A provisioner with neither TTL defined. -/
def provNoTTL : Provisioner :=
  { name := "default"
    Spec := { Cluster := clusterEx, Constraints := emptyConstraints,
              TTLSecondsAfterEmpty := none, TTLSecondsUntilExpired := none } }

/-- A provisioner with only the age TTL defined (30 seconds). -/
def provAgeOnly : Provisioner :=
  { name := "default"
    Spec := { Cluster := clusterEx, Constraints := emptyConstraints,
              TTLSecondsAfterEmpty := none, TTLSecondsUntilExpired := some 30 } }

/-- A provisioner with the empty TTL defined (30 seconds). -/
def provWithTTL : Provisioner :=
  { name := "default"
    Spec := { Cluster := clusterEx, Constraints := emptyConstraints,
              TTLSecondsAfterEmpty := some 30, TTLSecondsUntilExpired := none } }

/-- Cycle outcomes: provisioner without TTLs found, every stage would succeed. -/
def envSkipTTL : Env :=
  { getProvisioner := GetResult.found provNoTTL, terminateFailedToJoin := none,
    markUnderutilized := none, clearUnderutilized := none, terminateExpired := none }

/-- Cycle outcomes: age-TTL-only provisioner found, every stage would succeed. -/
def envAgeOnly : Env :=
  { getProvisioner := GetResult.found provAgeOnly, terminateFailedToJoin := none,
    markUnderutilized := none, clearUnderutilized := none, terminateExpired := none }

/-- Cycle outcomes: the fetch reports not-found. -/
def envNotFound : Env :=
  { getProvisioner := GetResult.failed true (KError.raw "provisioner not found"),
    terminateFailedToJoin := none, markUnderutilized := none,
    clearUnderutilized := none, terminateExpired := none }

/-- Cycle outcomes: the fetch fails with a transport error. -/
def envFetchFailed : Env :=
  { getProvisioner := GetResult.failed false (KError.raw "connection refused"),
    terminateFailedToJoin := none, markUnderutilized := none,
    clearUnderutilized := none, terminateExpired := none }

/-- Cycle outcomes: TTL provisioner found, every stage succeeds. -/
def envAllSucceed : Env :=
  { getProvisioner := GetResult.found provWithTTL, terminateFailedToJoin := none,
    markUnderutilized := none, clearUnderutilized := none, terminateExpired := none }

/-- Cycle outcomes: TTL provisioner found, the mark stage fails. -/
def envMarkFails : Env :=
  { getProvisioner := GetResult.found provWithTTL, terminateFailedToJoin := none,
    markUnderutilized := some (KError.raw "patch conflict"),
    clearUnderutilized := none, terminateExpired := none }

/-! Theorems about the constraint resolver. -/

/-- C1: for each constrainable dimension (zone, instance type, architecture,
operating system), a value the workload supplies under that dimension's
well-known key appears unchanged in the result of WithOverrides, whatever the
provisioner constraints configure for that dimension. -/
theorem withOverrides_workload_precedence (c : Constraints) (pod : Pod) :
    (∀ z, pod.nodeSelector.lookup ZoneLabelKey = some z →
      (c.WithOverrides pod).Zones = [z]) ∧
    (∀ t, pod.nodeSelector.lookup InstanceTypeLabelKey = some t →
      (c.WithOverrides pod).InstanceTypes = [t]) ∧
    (∀ a, pod.nodeSelector.lookup ArchitectureLabelKey = some a →
      (c.WithOverrides pod).Architecture = some a) ∧
    (∀ o, pod.nodeSelector.lookup OperatingSystemLabelKey = some o →
      (c.WithOverrides pod).OperatingSystem = some o) := by
  refine ⟨?_, ?_, ?_, ?_⟩
  · intro z hz
    simp [Constraints.WithOverrides, Constraints.getZones, hz]
  · intro t ht
    simp [Constraints.WithOverrides, Constraints.getInstanceTypes, ht]
  · intro a ha
    simp [Constraints.WithOverrides, Constraints.getArchitecture, ha]
  · intro o ho
    simp [Constraints.WithOverrides, Constraints.getOperatingSystem, ho]

/-- C1 witness: the precedence theorem at a provisioner configuring every
dimension and a pod overriding every dimension. -/
theorem withOverrides_workload_precedence_witness :
    (fullConstraints.WithOverrides overridingPod).Zones = ["eu-west-1c"] ∧
    (fullConstraints.WithOverrides overridingPod).InstanceTypes = ["c5.xlarge"] ∧
    (fullConstraints.WithOverrides overridingPod).Architecture = some "amd64" ∧
    (fullConstraints.WithOverrides overridingPod).OperatingSystem = some "linux" :=
  ⟨(withOverrides_workload_precedence fullConstraints overridingPod).1 "eu-west-1c" rfl,
   (withOverrides_workload_precedence fullConstraints overridingPod).2.1 "c5.xlarge" rfl,
   (withOverrides_workload_precedence fullConstraints overridingPod).2.2.1 "amd64" rfl,
   (withOverrides_workload_precedence fullConstraints overridingPod).2.2.2 "linux" rfl⟩

/-- C7: with no architecture, operating system, zones or instance types
configured on the provisioner and none of the well-known keys in the pod
selector, WithOverrides yields architecture amd64, operating system linux,
and unconstrained (empty) zones and instance types; the resolver is total, so
no error can arise. -/
theorem withOverrides_defaults (c : Constraints) (pod : Pod)
    (hz : c.Zones = []) (hi : c.InstanceTypes = [])
    (ha : c.Architecture = none) (ho : c.OperatingSystem = none)
    (pz : pod.nodeSelector.lookup ZoneLabelKey = none)
    (pt : pod.nodeSelector.lookup InstanceTypeLabelKey = none)
    (pa : pod.nodeSelector.lookup ArchitectureLabelKey = none)
    (po : pod.nodeSelector.lookup OperatingSystemLabelKey = none) :
    (c.WithOverrides pod).Architecture = some ArchitectureAmd64 ∧
    (c.WithOverrides pod).OperatingSystem = some OperatingSystemLinux ∧
    (c.WithOverrides pod).Zones = [] ∧
    (c.WithOverrides pod).InstanceTypes = [] := by
  refine ⟨?_, ?_, ?_, ?_⟩
  · simp [Constraints.WithOverrides, Constraints.getArchitecture, pa, ha]
  · simp [Constraints.WithOverrides, Constraints.getOperatingSystem, po, ho]
  · simp [Constraints.WithOverrides, Constraints.getZones, pz, hz]
  · simp [Constraints.WithOverrides, Constraints.getInstanceTypes, pt, hi]

/-- C7 witness: the default-fallback theorem at the bare provisioner and a pod
carrying only an unrelated selector key. -/
theorem withOverrides_defaults_witness :
    (emptyConstraints.WithOverrides plainPod).Architecture = some ArchitectureAmd64 ∧
    (emptyConstraints.WithOverrides plainPod).OperatingSystem = some OperatingSystemLinux ∧
    (emptyConstraints.WithOverrides plainPod).Zones = [] ∧
    (emptyConstraints.WithOverrides plainPod).InstanceTypes = [] :=
  withOverrides_defaults emptyConstraints plainPod rfl rfl rfl rfl rfl rfl rfl rfl

/-- C8: the taints of the resolved constraint set equal the provisioner taints
for every pod; no content of the pod influences them. -/
theorem withOverrides_taints_frame (c : Constraints) (pod : Pod) :
    (c.WithOverrides pod).Taints = c.Taints := rfl

/-- C9: a pod selector value for the zone key (resp. the instance-type key)
makes the resolved zones (resp. instance types) exactly the one-element list of
that value, and the provisioner allow-set for the dimension is discarded
entirely: replacing it by any list at all leaves the result unchanged, member
or not. -/
theorem withOverrides_selector_discards_allow_set (c : Constraints) (pod : Pod) :
    (∀ z, pod.nodeSelector.lookup ZoneLabelKey = some z →
      (c.WithOverrides pod).Zones = [z] ∧
      ∀ zs, (Constraints.WithOverrides { c with Zones := zs } pod).Zones = [z]) ∧
    (∀ t, pod.nodeSelector.lookup InstanceTypeLabelKey = some t →
      (c.WithOverrides pod).InstanceTypes = [t] ∧
      ∀ ts, (Constraints.WithOverrides { c with InstanceTypes := ts }
        pod).InstanceTypes = [t]) := by
  constructor
  · intro z hz
    exact ⟨by simp [Constraints.WithOverrides, Constraints.getZones, hz],
           fun zs => by simp [Constraints.WithOverrides, Constraints.getZones, hz]⟩
  · intro t ht
    exact ⟨by simp [Constraints.WithOverrides, Constraints.getInstanceTypes, ht],
           fun ts => by simp [Constraints.WithOverrides, Constraints.getInstanceTypes, ht]⟩

/-- C9 witness: the override theorem at selector values lying outside the
configured allow-sets. -/
theorem withOverrides_selector_discards_allow_set_witness :
    allowSetConstraints.Zones.contains "mars-1" = false ∧
    (allowSetConstraints.WithOverrides foreignSelectorPod).Zones = ["mars-1"] ∧
    allowSetConstraints.InstanceTypes.contains "warp.core" = false ∧
    (allowSetConstraints.WithOverrides foreignSelectorPod).InstanceTypes =
      ["warp.core"] :=
  ⟨by decide,
   ((withOverrides_selector_discards_allow_set allowSetConstraints
     foreignSelectorPod).1 "mars-1" rfl).1,
   by decide,
   ((withOverrides_selector_discards_allow_set allowSetConstraints
     foreignSelectorPod).2 "warp.core" rfl).1⟩

/-! Theorems about the reallocation controller. -/

/-- C4: when the Provisioner fetch reports not-found, Reconcile returns a nil
error, the zero result (no requeue), and invokes no lifecycle stage, so no
node is mutated. -/
theorem reconcile_missing_provisioner (env : Env) (e : KError)
    (h : env.getProvisioner = GetResult.failed true e) :
    Reconcile env = (zeroResult, none, []) := by
  simp [Reconcile, h]

/-- C4 witness: the missing-provisioner theorem at a concrete not-found cycle. -/
theorem reconcile_missing_provisioner_witness :
    Reconcile envNotFound = (zeroResult, none, []) :=
  reconcile_missing_provisioner envNotFound (KError.raw "provisioner not found") rfl

/-- C2 (amended): with the empty TTL undefined and terminate-failed-to-join
successful, Reconcile skips the mark, clear and expire stages and returns
success with the zero result — no revisit interval is scheduled on this path. -/
theorem reconcile_no_empty_ttl_skips (env : Env) (p : Provisioner)
    (hg : env.getProvisioner = GetResult.found p)
    (hj : env.terminateFailedToJoin = none)
    (ht : p.Spec.TTLSecondsAfterEmpty = none) :
    Reconcile env = (zeroResult, none, [Stage.terminateFailedToJoin]) := by
  simp [Reconcile, hg, hj, ht]

/-- C2 counterexample: a concrete skip-path cycle succeeds with RequeueAfter
zero, strictly below the fixed 5 second revisit interval the claim states is
scheduled there. -/
theorem reconcile_no_empty_ttl_counterexample :
    Reconcile envSkipTTL = (zeroResult, none, [Stage.terminateFailedToJoin]) ∧
    (Reconcile envSkipTTL).1.RequeueAfter = 0 ∧
    (Reconcile envSkipTTL).1.RequeueAfter < 5 * timeSecond := by
  refine ⟨rfl, rfl, ?_⟩
  decide

/-- C2 witness: the skip theorem at the concrete no-TTL cycle. -/
theorem reconcile_no_empty_ttl_skips_witness :
    Reconcile envSkipTTL = (zeroResult, none, [Stage.terminateFailedToJoin]) :=
  reconcile_no_empty_ttl_skips envSkipTTL provNoTTL rfl rfl rfl

/-- C3: with ttlSecondsAfterEmpty undefined and ttlSecondsUntilExpired set to
30, a fully successful cycle returns at the early skip: the terminateExpired
stage is never invoked, so no age-based expiry can run, contrary to the
documented contract that only an unset ttlSecondsUntilExpired disables
expiration. -/
theorem reconcile_age_ttl_never_runs :
    provAgeOnly.Spec.TTLSecondsUntilExpired = some 30 ∧
    Reconcile envAgeOnly = (zeroResult, none, [Stage.terminateFailedToJoin]) ∧
    (Reconcile envAgeOnly).2.2.contains Stage.terminateExpired = false :=
  ⟨rfl, rfl, rfl⟩

/-- C5 (amended): the Utilization stages run in the fixed order
terminate-failed-to-join, mark, clear, expire (every trace is a prefix of that
order); the first failing stage aborts the cycle with its error wrapped in the
stage message naming it; a fetch failure also aborts the cycle, but its error
is returned as-is, unwrapped. -/
theorem reconcile_stage_order_and_wrapping (env : Env) :
    (∃ n, (Reconcile env).2.2 = stageOrder.take n) ∧
    (∀ e, env.getProvisioner = GetResult.failed false e →
      Reconcile env = (zeroResult, some e, [])) ∧
    (∀ p e, env.getProvisioner = GetResult.found p →
      env.terminateFailedToJoin = some e →
      Reconcile env = (zeroResult,
        some (KError.wrapped "terminating nodes that failed to join" e),
        stageOrder.take 1)) ∧
    (∀ p t e, env.getProvisioner = GetResult.found p →
      env.terminateFailedToJoin = none → p.Spec.TTLSecondsAfterEmpty = some t →
      env.markUnderutilized = some e →
      Reconcile env = (zeroResult,
        some (KError.wrapped "adding ttl and underutilized label" e),
        stageOrder.take 2)) ∧
    (∀ p t e, env.getProvisioner = GetResult.found p →
      env.terminateFailedToJoin = none → p.Spec.TTLSecondsAfterEmpty = some t →
      env.markUnderutilized = none → env.clearUnderutilized = some e →
      Reconcile env = (zeroResult,
        some (KError.wrapped "removing ttl from node" e),
        stageOrder.take 3)) ∧
    (∀ p t e, env.getProvisioner = GetResult.found p →
      env.terminateFailedToJoin = none → p.Spec.TTLSecondsAfterEmpty = some t →
      env.markUnderutilized = none → env.clearUnderutilized = none →
      env.terminateExpired = some e →
      Reconcile env = (zeroResult,
        some (KError.wrapped "marking nodes terminable" e),
        stageOrder.take 4)) := by
  refine ⟨?_, ?_, ?_, ?_, ?_, ?_⟩
  · rcases hg : env.getProvisioner with p | ⟨nf, e⟩
    · rcases hj : env.terminateFailedToJoin with _ | e1
      · rcases ht : p.Spec.TTLSecondsAfterEmpty with _ | t
        · exact ⟨1, by simp [Reconcile, hg, hj, ht, stageOrder]⟩
        · rcases hm : env.markUnderutilized with _ | e2
          · rcases hc : env.clearUnderutilized with _ | e3
            · rcases hx : env.terminateExpired with _ | e4
              · exact ⟨4, by simp [Reconcile, hg, hj, ht, hm, hc, hx, stageOrder]⟩
              · exact ⟨4, by simp [Reconcile, hg, hj, ht, hm, hc, hx, stageOrder]⟩
            · exact ⟨3, by simp [Reconcile, hg, hj, ht, hm, hc, stageOrder]⟩
          · exact ⟨2, by simp [Reconcile, hg, hj, ht, hm, stageOrder]⟩
      · exact ⟨1, by simp [Reconcile, hg, hj, stageOrder]⟩
    · cases nf
      · exact ⟨0, by simp [Reconcile, hg]⟩
      · exact ⟨0, by simp [Reconcile, hg]⟩
  · intro e hg
    simp [Reconcile, hg]
  · intro p e hg hj
    simp [Reconcile, hg, hj, stageOrder]
  · intro p t e hg hj ht hm
    simp [Reconcile, hg, hj, ht, hm, stageOrder]
  · intro p t e hg hj ht hm hc
    simp [Reconcile, hg, hj, ht, hm, hc, stageOrder]
  · intro p t e hg hj ht hm hc hx
    simp [Reconcile, hg, hj, ht, hm, hc, hx, stageOrder]

/-- C5 counterexample: a fetch failure is the first failing stage of its cycle,
yet its error comes back exactly as the raw error, with no stage-identifying
wrapping. -/
theorem reconcile_fetch_error_unwrapped :
    Reconcile envFetchFailed =
      (zeroResult, some (KError.raw "connection refused"), []) ∧
    isStageWrapped (Reconcile envFetchFailed).2.1 = false :=
  ⟨rfl, rfl⟩

/-- C5 witness: the order-and-wrapping theorem at a cycle whose mark stage
fails. -/
theorem reconcile_stage_order_and_wrapping_witness :
    Reconcile envMarkFails = (zeroResult,
      some (KError.wrapped "adding ttl and underutilized label"
        (KError.raw "patch conflict")),
      stageOrder.take 2) :=
  (reconcile_stage_order_and_wrapping envMarkFails).2.2.2.1 provWithTTL 30
    (KError.raw "patch conflict") rfl rfl rfl rfl

/-- C6: a cycle that completes every stage without error returns a nil error
and a result requesting a revisit after exactly 5 seconds, unconditionally. -/
theorem reconcile_success_requeues_after_5s (env : Env) (p : Provisioner) (t : Int)
    (hg : env.getProvisioner = GetResult.found p)
    (ht : p.Spec.TTLSecondsAfterEmpty = some t)
    (h1 : env.terminateFailedToJoin = none)
    (h2 : env.markUnderutilized = none)
    (h3 : env.clearUnderutilized = none)
    (h4 : env.terminateExpired = none) :
    Reconcile env =
      ({ Requeue := false, RequeueAfter := 5 * timeSecond }, none, stageOrder) := by
  simp [Reconcile, hg, ht, h1, h2, h3, h4]

/-- C6 witness: the success-requeue theorem at a fully successful concrete
cycle. -/
theorem reconcile_success_requeues_after_5s_witness :
    Reconcile envAllSucceed =
      ({ Requeue := false, RequeueAfter := 5 * timeSecond }, none, stageOrder) :=
  reconcile_success_requeues_after_5s envAllSucceed provWithTTL 30
    rfl rfl rfl rfl rfl rfl

/-- C10: every error return carries the zero result, and a non-zero
RequeueAfter occurs only on the fully successful path where every lifecycle
stage was invoked and succeeded. -/
theorem reconcile_error_implies_zero_result (env : Env) :
    ((Reconcile env).2.1 ≠ none → (Reconcile env).1 = zeroResult) ∧
    ((Reconcile env).1.RequeueAfter ≠ 0 →
      (Reconcile env).2.1 = none ∧ (Reconcile env).2.2 = stageOrder ∧
      env.terminateFailedToJoin = none ∧ env.markUnderutilized = none ∧
      env.clearUnderutilized = none ∧ env.terminateExpired = none) := by
  obtain ⟨g, s1, s2, s3, s4⟩ := env
  rcases g with p | ⟨nf, e⟩
  · rcases s1 with _ | e1
    · rcases ht : p.Spec.TTLSecondsAfterEmpty with _ | t
      · simp [Reconcile, ht, zeroResult]
      · rcases s2 with _ | e2
        · rcases s3 with _ | e3
          · rcases s4 with _ | e4
            · simp [Reconcile, ht]
            · simp [Reconcile, ht, zeroResult]
          · simp [Reconcile, ht, zeroResult]
        · simp [Reconcile, ht, zeroResult]
    · simp [Reconcile, zeroResult]
  · cases nf
    · simp [Reconcile, zeroResult]
    · simp [Reconcile, zeroResult]

/-- C10 witness: an error cycle yields the zero result, and the successful
cycle with its non-zero RequeueAfter yields a nil error. -/
theorem reconcile_error_implies_zero_result_witness :
    (Reconcile envFetchFailed).1 = zeroResult ∧
    (Reconcile envAllSucceed).2.1 = none :=
  ⟨(reconcile_error_implies_zero_result envFetchFailed).1 (by decide),
   ((reconcile_error_implies_zero_result envAllSucceed).2 (by decide)).1⟩

end Karpenter
